import Mathlib

/-!
# Verification of the input_monitor repository

A shallow embedding of the repository's core subsystems, translated from
`src/debounce.rs`, `src/uia/text.rs` and `src/uia/handlers.rs`:

* the debounce/coalescing worker (`debounce_worker`),
* the hierarchical fallback text retrieval (`get_text`, `get_text_deep`),
* the three manually reference-counted COM callback objects
  (`query_interface`, `add_ref`, `release`, and the three behavior methods),
* the lazily-initialized process-wide debounce channel (`DEBOUNCE_SENDER`).

Rust `String` values are modelled as `List Char`; every fallible host call
(a `windows::core::Result`) is modelled as an `Option` field of the state
supplied by the host environment, and Rust `Result<String>` return values
as `Except Unit (List Char)`.
-/

namespace InputMonitor

/-- Rust `String`, modelled as a list of characters. -/
abbrev Str := List Char

/-! ## Host-side constants (from the `windows` crate, used by the source) -/

/-- `UIA_EditControlTypeId` (numeric value of the UIA control type id). -/
def UIA_EditControlTypeId : Int := 50004

/-- `UIA_GroupControlTypeId`. -/
def UIA_GroupControlTypeId : Int := 50026

/-- `UIA_DocumentControlTypeId`. -/
def UIA_DocumentControlTypeId : Int := 50030

/-- `UIA_ValueValuePropertyId`. -/
def UIA_ValueValuePropertyId : Int := 30045

/-- `UIA_Text_TextChangedEventId`. -/
def UIA_Text_TextChangedEventId : Int := 20015

/-- `S_OK` as an `HRESULT` value. -/
def S_OK : Int := 0

/-- `E_NOINTERFACE` (`0x80004002` as a signed 32-bit value). -/
def E_NOINTERFACE : Int := -2147467262

/-! ## `src/uia/text.rs`: the text retrieval protocol -/

/-- `MAX_TEXT_LEN: i32 = 4096` from `src/uia/text.rs`. -/
def MAX_TEXT_LEN : Nat := 4096

/-- Host-side model of an `IUIAutomationValuePattern`:
`CurrentValue()` either fails (`none`) or yields a string. -/
structure ValuePatternM where
  currentValue : Option Str
deriving Repr, DecidableEq

/-- Host-side model of an `IUIAutomationTextRange`: the underlying document
text as the host would hand it out, or `none` when `GetText` fails.
`GetText(maxLength)` returns at most `maxLength` characters of it
(the host truncates; see the range-based text access contract). -/
structure TextRangeM where
  getTextSource : Option Str
deriving Repr, DecidableEq

/-- Host-side model of an `IUIAutomationTextPattern`:
`DocumentRange()` either fails (`none`) or yields a range. -/
structure TextPatternM where
  documentRange : Option TextRangeM
deriving Repr, DecidableEq

/-- The per-element host capability surface consumed by the source.

* `getCurrentPatternValue`: result of
  `element.GetCurrentPattern(UIA_ValuePatternId)` followed by the
  `cast::<IUIAutomationValuePattern>()`; the outer `none` is a failing
  `GetCurrentPattern`, an inner `none` a failing cast.
* `getCurrentPatternText`: likewise for `UIA_TextPatternId` and
  `IUIAutomationTextPattern`.
* `isTextPatternAvailable` / `isValuePatternAvailable`: the two capability
  presence properties the descendant-search conditions are built from.
* `currentControlType`: `element.CurrentControlType()` (`none` = host error).
* `currentName`: `element.CurrentName()`.
* `currentHasKeyboardFocus`: `element.CurrentHasKeyboardFocus()`. -/
structure ElemData where
  getCurrentPatternValue : Option (Option ValuePatternM)
  getCurrentPatternText : Option (Option TextPatternM)
  isTextPatternAvailable : Bool
  isValuePatternAvailable : Bool
  currentControlType : Option Int
  currentName : Option Str
  currentHasKeyboardFocus : Option Bool
deriving Repr, DecidableEq

/-- An element of the host's accessibility tree: its own capability data
plus its ordered child subtrees. -/
inductive Element where
  | node (data : ElemData) (children : List Element)

/-- The element's own host data. -/
def Element.data : Element → ElemData
  | .node d _ => d

/-- The element's ordered children. -/
def Element.children : Element → List Element
  | .node _ cs => cs

mutual

/-- All nodes of an element's subtree, element first, in preorder
(the host's depth-first traversal order). -/
def Element.subtree : Element → List Element
  | .node d cs => .node d cs :: subtreeForest cs

/-- Preorder concatenation of a forest of subtrees. -/
def subtreeForest : List Element → List Element
  | [] => []
  | e :: es => e.subtree ++ subtreeForest es

end

/-- The strict descendants of an element (`TreeScope_Descendants` excludes
the element itself), in host traversal order. -/
def Element.descendants (e : Element) : List Element :=
  subtreeForest e.children

/-- The condition built in `get_text_deep`:
`IsTextPatternAvailable = true` OR `IsValuePatternAvailable = true`. -/
def supportsTextOrValue (e : Element) : Bool :=
  e.data.isTextPatternAvailable || e.data.isValuePatternAvailable

/-- `element.FindFirst(TreeScope_Descendants, cond)` with the or-condition of
`get_text_deep`: the first matching strict descendant in host traversal
order, `none` when no descendant matches (the host then reports an error,
which the source maps to an empty result). -/
def findFirstTextOrValue (e : Element) : Option Element :=
  e.descendants.find? supportsTextOrValue

/-- `get_text` from `src/uia/text.rs`.

Tries the value pattern first (`GetCurrentPattern` → cast → `CurrentValue`);
returns that string when non-empty. Otherwise falls through to the text
pattern (`GetCurrentPattern` → cast → `DocumentRange` → `GetText(MAX_TEXT_LEN)`),
returning whatever `GetText` yields — the host truncates to at most
`MAX_TEXT_LEN` characters. Any failing step falls through; the final
fallback is `Ok(String::new())`. -/
def get_text (e : Element) : Except Unit Str :=
  let viaValue : Option Str :=
    match e.data.getCurrentPatternValue with
    | some (some vp) =>
      match vp.currentValue with
      | some s => if s ≠ [] then some s else none
      | none => none
    | _ => none
  match viaValue with
  | some s => .ok s
  | none =>
    match e.data.getCurrentPatternText with
    | some (some tp) =>
      match tp.documentRange with
      | some range =>
        match range.getTextSource with
        | some t => .ok (t.take MAX_TEXT_LEN)
        | none => .ok []
      | none => .ok []
    | _ => .ok []

/-- The per-thread automation session used by `get_text_deep` through
`with_thread_automation`: whether each of the three condition-building
host calls (`CreatePropertyCondition` twice, `CreateOrCondition`) succeeds. -/
structure Session where
  createCondTextOk : Bool
  createCondValueOk : Bool
  createOrCondOk : Bool
deriving Repr, DecidableEq

/-- `get_text_deep` from `src/uia/text.rs`.

First `get_text(element)?`; if the text is non-empty, return it. Otherwise
acquire the thread automation session (`none` models a failing
`CoCreateInstance`, whose error the `?` propagates), build the two property
conditions and their or-condition (each `?`-propagated on failure), run
`FindFirst(TreeScope_Descendants, cond)` — a failure there (including "no
match") yields `Ok(String::new())` — and apply `get_text` to the found
descendant. -/
def get_text_deep (session : Option Session) (e : Element) : Except Unit Str :=
  match get_text e with
  | .error er => .error er
  | .ok text =>
    if text ≠ [] then .ok text
    else
      match session with
      | none => .error ()
      | some s =>
        if s.createCondTextOk then
          if s.createCondValueOk then
            if s.createOrCondOk then
              match findFirstTextOrValue e with
              | some found => get_text found
              | none => .ok []
            else .error ()
          else .error ()
        else .error ()

/-! ## `src/debounce.rs`: the debounce/coalescing worker

The worker runs on its own thread; we model logical time in milliseconds.
The channel input is the time-sorted list of `(arrival time, message)`
submissions over the whole run; the worker's observable behaviour is the
list of `(emission time, message)` print events. `recv` blocks until the
next submission arrives; `recv_timeout(DEBOUNCE_MS)` receives the next
submission when it arrives strictly within `DEBOUNCE_MS` of the start of
the wait, and otherwise times out, at which point the pending message is
printed. The sender is a process-wide singleton that is never dropped, so
the `Disconnected` arms never fire during a run. -/

/-- `DEBOUNCE_MS: u64 = 200` from `src/debounce.rs`. -/
def DEBOUNCE_MS : Nat := 200

/-- The worker loop of `debounce_worker`, on logical time.

State `none` is the outer `rx.recv()` (no pending message);
state `some (now, last)` is the inner coalescing loop with pending message
`last`, the wait having started at time `now`. Each step consumes the next
submission or, when it is not due within `DEBOUNCE_MS`, emits the pending
message at `now + DEBOUNCE_MS` first. -/
def debounce_worker : Option (Nat × Str) → List (Nat × Str) → List (Nat × Str)
  | none, [] => []
  | some (now, last), [] => [(now + DEBOUNCE_MS, last)]
  | none, (t, m) :: rest => debounce_worker (some (t, m)) rest
  | some (now, last), (t, m) :: rest =>
    if t - now < DEBOUNCE_MS then
      debounce_worker (some (t, m)) rest
    else
      (now + DEBOUNCE_MS, last) :: debounce_worker (some (t, m)) rest

/-- The emissions of the worker over a whole run of submissions, starting
at the outer blocking `recv`. -/
def workerEmissions (submissions : List (Nat × Str)) : List (Nat × Str) :=
  debounce_worker none submissions

/-- A burst: each submission arrives no earlier than, and strictly less
than `DEBOUNCE_MS` after, its predecessor. -/
def isBurst (submissions : List (Nat × Str)) : Prop :=
  List.Chain' (fun a b => a.1 ≤ b.1 ∧ b.1 - a.1 < DEBOUNCE_MS) submissions

instance (submissions : List (Nat × Str)) : Decidable (isBurst submissions) :=
  inferInstanceAs (Decidable (List.Chain' _ submissions))

/-! ## `src/uia/handlers.rs`: the manually reference-counted callback objects

The three handler structs (`ManualFocusHandler`, `ManualPropertyHandler`,
`ManualTextChangedHandler`) carry a vtable pointer and an `AtomicU32`
reference count, and share verbatim `new`/`add_ref`/`release` code and the
shape of `query_interface`; they differ in the behavior interface IID they
answer to and in their one behavior method. We model the mutable object
state and each vtable function as a state transformer; `u32` arithmetic is
taken modulo `2^32`. -/

/-- The modulus of `u32` arithmetic. -/
def u32Mod : Nat := 2 ^ 32

/-- A COM `GUID` (`Data1`/`Data2`/`Data3` and the eight `Data4` bytes as
one number). -/
structure GUID where
  data1 : Nat
  data2 : Nat
  data3 : Nat
  data4 : Nat
deriving Repr, DecidableEq

/-- `IUnknown::IID` = `{00000000-0000-0000-C000-000000000046}`. -/
def IUnknown_IID : GUID := ⟨0x00000000, 0x0000, 0x0000, 0xc000000000000046⟩

/-- `IUIAutomationFocusChangedEventHandler::IID`
= `{c270f6b5-5c69-4290-9745-7a7f97169468}`. -/
def IUIAutomationFocusChangedEventHandler_IID : GUID :=
  ⟨0xc270f6b5, 0x5c69, 0x4290, 0x97457a7f97169468⟩

/-- `IUIAutomationPropertyChangedEventHandler::IID`
= `{40cd37d4-c756-4b0c-8c6f-bddfeeb13b50}`. -/
def IUIAutomationPropertyChangedEventHandler_IID : GUID :=
  ⟨0x40cd37d4, 0xc756, 0x4b0c, 0x8c6fbddfeeb13b50⟩

/-- `IUIAutomationEventHandler::IID`
= `{146c3c17-f12e-4e22-8c27-f894b9b79c69}`. -/
def IUIAutomationEventHandler_IID : GUID :=
  ⟨0x146c3c17, 0xf12e, 0x4e22, 0x8c27f894b9b79c69⟩

/-- The mutable state of one handler object: its `ref_count` field, plus
the number of times `Box::from_raw` has reclaimed (destroyed) the object —
`0` while the object is alive. -/
structure HandlerState where
  ref_count : Nat
  destroyCount : Nat
deriving Repr, DecidableEq

/-- `ManualFocusHandler::new` (and verbatim the other two `new`s):
the object starts with `ref_count: AtomicU32::new(1)` and has not been
destroyed. -/
def HandlerState.new : HandlerState := ⟨1, 0⟩

/-- `add_ref` (identical in all three handlers):
`ref_count.fetch_add(1, Ordering::Relaxed) + 1` — atomically increments
and returns the new value (as `u32`). -/
def add_ref (s : HandlerState) : HandlerState × Nat :=
  let newCount := (s.ref_count + 1) % u32Mod
  (⟨newCount, s.destroyCount⟩, newCount)

/-- `release` (identical in all three handlers):
`ref_count.fetch_sub(1, Ordering::Relaxed) - 1`; when the new count is `0`
the object is reclaimed (`Box::from_raw`) as part of this call. Returns the
new count. -/
def release (s : HandlerState) : HandlerState × Nat :=
  let newCount := (s.ref_count + (u32Mod - 1)) % u32Mod
  (⟨newCount, if newCount = 0 then s.destroyCount + 1 else s.destroyCount⟩, newCount)

/-- What `query_interface` writes through its `interface` out-parameter:
either the null pointer or the object itself. -/
inductive IfacePtr where
  | null
  | self
deriving Repr, DecidableEq

/-- The shared shape of the three `query_interface` implementations: when
`iid` is `IUnknown::IID` or the object's own behavior-interface IID, write
the object itself to the out-parameter, `add_ref` it and return `S_OK`;
otherwise write null and return `E_NOINTERFACE` with no side effect. -/
def query_interface_impl (ownIID : GUID) (s : HandlerState) (iid : GUID) :
    HandlerState × IfacePtr × Int :=
  if iid = IUnknown_IID ∨ iid = ownIID then
    ((add_ref s).1, IfacePtr.self, S_OK)
  else
    (s, IfacePtr.null, E_NOINTERFACE)

/-- The observable outcome of one behavior-method invocation: the lines
printed directly to the console, the messages submitted to the debounce
channel via `debounce_print`, and the returned `HRESULT`. -/
structure HandlerOutput where
  printed : List Str
  submitted : List Str
  hresult : Int
deriving Repr, DecidableEq

/-- The `{:?}` Debug rendering of a `UIA_CONTROLTYPE_ID` value. -/
def debugControlType (ct : Int) : Str :=
  ("UIA_CONTROLTYPE_ID(").toList ++ (toString ct).toList ++ (")").toList

/-- The focus-transition line of `handle_focus_changed_event`. -/
def focusLine (ct : Int) (name : Str) : Str :=
  (">>> [焦点切换] 控件类型: ").toList ++ debugControlType ct
    ++ (", 进入输入框: '").toList ++ name ++ ("'").toList

/-- The current-content line of `handle_focus_changed_event`. -/
def contentLine (text : Str) : Str :=
  ("    当前内容: ").toList ++ text

/-- The debounced message of `handle_property_changed_event`. -/
def propertyChangeLine (ct : Int) (name : Str) (text : Str) : Str :=
  ("    [输入监测] 控件类型: ").toList ++ debugControlType ct
    ++ (", '").toList ++ name ++ ("' 变更为: ").toList ++ text

/-- The debounced message of `handle_automation_event`. -/
def textChangedLine (ct : Int) (name : Str) (text : Str) : Str :=
  ("    [输入监测] (TextChanged) ").toList ++ debugControlType ct
    ++ (", '").toList ++ name ++ ("' 变更为: ").toList ++ text

namespace ManualFocusHandler

/-- `ManualFocusHandler::query_interface`: answers for `IUnknown` and
`IUIAutomationFocusChangedEventHandler`. -/
def query_interface (s : HandlerState) (iid : GUID) : HandlerState × IfacePtr × Int :=
  query_interface_impl IUIAutomationFocusChangedEventHandler_IID s iid

/-- `ManualFocusHandler::handle_focus_changed_event`: on a non-null sender
of control type Edit or Group, fetch the name, print the transition line,
and — whenever `get_text_deep` returns `Ok` — print the content line with
the retrieved text. Always returns `S_OK`. -/
def handle_focus_changed_event (session : Option Session) (sender : Option Element) :
    HandlerOutput :=
  match sender with
  | none => ⟨[], [], S_OK⟩
  | some element =>
    match element.data.currentControlType with
    | none => ⟨[], [], S_OK⟩
    | some control_type =>
      if control_type = UIA_EditControlTypeId ∨ control_type = UIA_GroupControlTypeId then
        let name := element.data.currentName.getD []
        let header := focusLine control_type name
        match get_text_deep session element with
        | .ok text => ⟨[header, contentLine text], [], S_OK⟩
        | .error _ => ⟨[header], [], S_OK⟩
      else ⟨[], [], S_OK⟩

end ManualFocusHandler

namespace ManualPropertyHandler

/-- `ManualPropertyHandler::query_interface`: answers for `IUnknown` and
`IUIAutomationPropertyChangedEventHandler`. -/
def query_interface (s : HandlerState) (iid : GUID) : HandlerState × IfacePtr × Int :=
  query_interface_impl IUIAutomationPropertyChangedEventHandler_IID s iid

/-- `ManualPropertyHandler::handle_property_changed_event`.

Proceeds only when `property_id == UIA_ValueValuePropertyId` and the sender
is non-null; re-checks the control type (Edit or Group); takes the payload
value when non-empty, else `get_text_deep(element).unwrap_or_default()`;
and submits to the debounce channel only when the element reports keyboard
focus (a failing focus query counts as unfocused) and the resulting text is
non-empty. Always returns `S_OK`. -/
def handle_property_changed_event (session : Option Session) (sender : Option Element)
    (property_id : Int) (new_value : Str) : HandlerOutput :=
  if property_id = UIA_ValueValuePropertyId then
    match sender with
    | none => ⟨[], [], S_OK⟩
    | some element =>
      match element.data.currentControlType with
      | none => ⟨[], [], S_OK⟩
      | some control_type =>
        if control_type = UIA_EditControlTypeId ∨ control_type = UIA_GroupControlTypeId then
          let val_str := new_value
          let current_text :=
            if val_str = [] then
              match get_text_deep session element with
              | .ok t => t
              | .error _ => []
            else val_str
          let name := element.data.currentName.getD []
          if element.data.currentHasKeyboardFocus.getD false then
            if current_text ≠ [] then
              ⟨[], [propertyChangeLine control_type name current_text], S_OK⟩
            else ⟨[], [], S_OK⟩
          else ⟨[], [], S_OK⟩
        else ⟨[], [], S_OK⟩
  else ⟨[], [], S_OK⟩

end ManualPropertyHandler

namespace ManualTextChangedHandler

/-- `ManualTextChangedHandler::query_interface`: answers for `IUnknown` and
`IUIAutomationEventHandler`. -/
def query_interface (s : HandlerState) (iid : GUID) : HandlerState × IfacePtr × Int :=
  query_interface_impl IUIAutomationEventHandler_IID s iid

/-- `ManualTextChangedHandler::handle_automation_event`.

Returns `S_OK` immediately unless `event_id == UIA_Text_TextChangedEventId`;
on a non-null sender, requires keyboard focus, a control type in
{Edit, Document, Group} (a failing control-type query defaults to `0`),
and a non-empty `get_text_deep` result before submitting to the debounce
channel. Always returns `S_OK`. -/
def handle_automation_event (session : Option Session) (sender : Option Element)
    (event_id : Int) : HandlerOutput :=
  if event_id ≠ UIA_Text_TextChangedEventId then ⟨[], [], S_OK⟩
  else
    match sender with
    | none => ⟨[], [], S_OK⟩
    | some element =>
      if !(element.data.currentHasKeyboardFocus.getD false) then ⟨[], [], S_OK⟩
      else
        let control_type := element.data.currentControlType.getD 0
        if control_type ≠ UIA_EditControlTypeId ∧ control_type ≠ UIA_DocumentControlTypeId
            ∧ control_type ≠ UIA_GroupControlTypeId then ⟨[], [], S_OK⟩
        else
          match get_text_deep session element with
          | .ok text =>
            if text ≠ [] then
              let name := element.data.currentName.getD []
              ⟨[], [textChangedLine control_type name text], S_OK⟩
            else ⟨[], [], S_OK⟩
          | .error _ => ⟨[], [], S_OK⟩

end ManualTextChangedHandler

/-! ## Reference-count call sequences (for the lifetime invariant)

The host drives an arbitrary interleaving of `add_ref`/`release` calls on
one object. Atomic `fetch_add`/`fetch_sub` make each call a single
indivisible update, so a concurrent history is modelled by its
linearization: a list of operations applied in order. -/

/-- One host call on the object's lifetime interface. -/
inductive RcOp where
  | addRef
  | release
deriving Repr, DecidableEq

/-- Apply one lifetime call to the object state (dropping the returned
count). -/
def applyRcOp (s : HandlerState) (op : RcOp) : HandlerState :=
  match op with
  | .addRef => (add_ref s).1
  | .release => (release s).1

/-- Run a linearized sequence of lifetime calls against the object state. -/
def runRcOps (s : HandlerState) (ops : List RcOp) : HandlerState :=
  ops.foldl applyRcOp s

/-- The exact (unbounded-arithmetic) evolution of the count. -/
def netCount (c : Nat) (ops : List RcOp) : Nat :=
  ops.foldl (fun n op => match op with | .addRef => n + 1 | .release => n - 1) c

/-- Unfolding equation of `runRcOps` at the empty sequence. -/
theorem runRcOps_nil (s : HandlerState) : runRcOps s [] = s := rfl

/-- Unfolding equation of `runRcOps` at a leading `addRef`. -/
theorem runRcOps_addRef (s : HandlerState) (rest : List RcOp) :
    runRcOps s (.addRef :: rest) = runRcOps (add_ref s).1 rest := rfl

/-- Unfolding equation of `applyRcOp` at `release`. -/
theorem applyRcOp_release (s : HandlerState) :
    applyRcOp s .release = (release s).1 := rfl

/-- `release` written out: the stored and returned count is the wrapped
decrement, and the object is reclaimed exactly when it is zero. -/
theorem release_eq (s : HandlerState) :
    release s
      = (⟨(s.ref_count + (u32Mod - 1)) % u32Mod,
          if (s.ref_count + (u32Mod - 1)) % u32Mod = 0 then s.destroyCount + 1
          else s.destroyCount⟩,
        (s.ref_count + (u32Mod - 1)) % u32Mod) := rfl

/-- Unfolding equation of `runRcOps` at a leading `release`. -/
theorem runRcOps_release (s : HandlerState) (rest : List RcOp) :
    runRcOps s (.release :: rest) = runRcOps (release s).1 rest := by
  show (RcOp.release :: rest).foldl applyRcOp s = rest.foldl applyRcOp (release s).1
  rw [List.foldl_cons, applyRcOp_release]

/-- Unfolding equation of `netCount` at the empty sequence. -/
theorem netCount_nil (c : Nat) : netCount c [] = c := rfl

/-- Unfolding equation of `netCount` at a leading `addRef`. -/
theorem netCount_addRef (c : Nat) (rest : List RcOp) :
    netCount c (.addRef :: rest) = netCount (c + 1) rest := rfl

/-- Unfolding equation of `netCount` at a leading `release`. -/
theorem netCount_release (c : Nat) (rest : List RcOp) :
    netCount c (.release :: rest) = netCount (c - 1) rest := rfl

/-- Host discipline for a sequence of lifetime calls starting at count `c`:
every call happens while the object is alive (the count is still positive —
no call is issued after the destroying release), and the count never
overflows `u32`. After a release that reaches `0`, `0 < c` fails for any
further call, so validity forces the destroying release to be last. -/
def validRcOps : Nat → List RcOp → Prop
  | _, [] => True
  | c, .addRef :: rest => 0 < c ∧ c + 1 < u32Mod ∧ validRcOps (c + 1) rest
  | c, .release :: rest => 0 < c ∧ validRcOps (c - 1) rest

instance instDecidableValidRcOps : ∀ (c : Nat) (ops : List RcOp), Decidable (validRcOps c ops)
  | _, [] => .isTrue trivial
  | c, .addRef :: rest =>
    have : Decidable (validRcOps (c + 1) rest) := instDecidableValidRcOps (c + 1) rest
    inferInstanceAs (Decidable (0 < c ∧ c + 1 < u32Mod ∧ validRcOps (c + 1) rest))
  | c, .release :: rest =>
    have : Decidable (validRcOps (c - 1) rest) := instDecidableValidRcOps (c - 1) rest
    inferInstanceAs (Decidable (0 < c ∧ validRcOps (c - 1) rest))

/-! ## The process-wide debounce channel (`DEBOUNCE_SENDER`)

`debounce_print` runs, on each calling thread:
`OnceLock::get_or_init` (create the channel and spawn the worker exactly
once, process-wide), then `sender.send(message)`. We model the `OnceLock`
by its documented states and every concurrent pattern of calls as an
interleaving of per-thread small steps. Threads are symmetric, so the
system state tracks how many threads sit at each point of
`debounce_print`, together with the lock phase, the number of worker
threads ever spawned, and the number of messages delivered to the
channel. -/

/-- The phases of the `OnceLock`: uninitialized, an initializer's closure
running, or the value published. -/
inductive OncePhase where
  | empty
  | busy
  | ready
deriving Repr, DecidableEq

/-- Global state: `nStart` threads are about to enter `get_or_init`,
`nIniting` won the lock and are about to spawn the worker, `nSpawned` have
spawned it and are about to publish the sender, `nSending` hold the sender
and are about to send, `nFinished` are done. -/
structure DebounceSys where
  once : OncePhase
  nStart : Nat
  nIniting : Nat
  nSpawned : Nat
  nSending : Nat
  nFinished : Nat
  workers : Nat
  sent : Nat
deriving Repr, DecidableEq

/-- `n` caller threads about to call `debounce_print`, nothing initialized. -/
def initSys (n : Nat) : DebounceSys := ⟨.empty, n, 0, 0, 0, 0, 0, 0⟩

/-- One thread takes one step of `debounce_print`. A thread entering
`get_or_init` on a `ready` lock proceeds straight to sending; on an `empty`
lock it wins the initialization race (the lock turns `busy` — atomically,
so at most one thread ever wins); on a `busy` lock it blocks (no step)
until the lock is `ready`. The winner's closure spawns the worker thread,
then publishes the sender, turning the lock `ready`. A sending thread
delivers its message to the channel and finishes. -/
inductive DStep : DebounceSys → DebounceSys → Prop
  | acquireReady (s : DebounceSys) (h : s.once = .ready) (h2 : 0 < s.nStart) :
      DStep s { s with nStart := s.nStart - 1, nSending := s.nSending + 1 }
  | acquireWin (s : DebounceSys) (h : s.once = .empty) (h2 : 0 < s.nStart) :
      DStep s { s with once := .busy, nStart := s.nStart - 1, nIniting := s.nIniting + 1 }
  | initSpawn (s : DebounceSys) (h : 0 < s.nIniting) :
      DStep s { s with nIniting := s.nIniting - 1, nSpawned := s.nSpawned + 1,
                       workers := s.workers + 1 }
  | publish (s : DebounceSys) (h : 0 < s.nSpawned) :
      DStep s { s with once := .ready, nSpawned := s.nSpawned - 1,
                       nSending := s.nSending + 1 }
  | send (s : DebounceSys) (h : 0 < s.nSending) :
      DStep s { s with nSending := s.nSending - 1, nFinished := s.nFinished + 1,
                       sent := s.sent + 1 }

/-- The states reachable from `n` fresh caller threads. -/
def DReachable (n : Nat) (s : DebounceSys) : Prop :=
  Relation.ReflTransGen DStep (initSys n) s

/-- The inductive invariant of the debounce-channel system. -/
def DInv (s : DebounceSys) : Prop :=
  (s.once = .empty → s.nIniting = 0 ∧ s.nSpawned = 0 ∧ s.workers = 0)
  ∧ (s.once = .busy → s.nIniting + s.nSpawned = 1 ∧ s.workers = s.nSpawned)
  ∧ (s.once = .ready → s.nIniting = 0 ∧ s.nSpawned = 0 ∧ s.workers = 1)
  ∧ (0 < s.nSending + s.nFinished + s.sent → s.once = .ready)

/-! ## Helper definitions for the statements -/

/-- The result of the value-pattern chain of `get_text`
(`GetCurrentPattern(UIA_ValuePatternId)` → cast → `CurrentValue`):
`none` when any step fails. -/
def currentValueResult (e : Element) : Option Str :=
  match e.data.getCurrentPatternValue with
  | some (some vp) => vp.currentValue
  | _ => none

/-- The underlying document text of the text-pattern chain of `get_text`
(`GetCurrentPattern(UIA_TextPatternId)` → cast → `DocumentRange` →
`GetText` source): `none` when any step fails. -/
def documentTextResult (e : Element) : Option Str :=
  match e.data.getCurrentPatternText with
  | some (some tp) =>
    match tp.documentRange with
    | some range => range.getTextSource
    | none => none
  | _ => none

/-- The text the property-changed behavior works with, as the spec words
it: the payload's provided value if non-empty, else the result of the
deep retrieval (its error case defaulting to empty). -/
def resultingText (session : Option Session) (e : Element) (payload : Str) : Str :=
  if payload ≠ [] then payload
  else
    match get_text_deep session e with
    | .ok t => t
    | .error _ => []

/-- A session in which all three condition-building host calls succeed. -/
def goodSession : Session := ⟨true, true, true⟩

/-- A session whose first `CreatePropertyCondition` host call fails. -/
def badSession : Session := ⟨false, true, true⟩

/-- An Edit-typed, focused element with no retrievable text, an empty name
and no descendants. -/
def emptyEditElem : Element :=
  .node ⟨none, none, false, false, some UIA_EditControlTypeId, some [], some true⟩ []

/-- A leaf exposing "hello" through the value pattern and advertising
value-pattern availability. -/
def helloChild : Element :=
  .node ⟨some (some ⟨some (("hello").toList)⟩), none, false, true, none, none, none⟩ []

/-- A Group-typed element with no direct text whose only descendant is
`helloChild`. -/
def parentNoText : Element :=
  .node ⟨none, none, false, false, some UIA_GroupControlTypeId, some [], some true⟩
    [helloChild]

/-- `get_text` characterized through the two retrieval chains: the value
chain wins when it yields a non-empty string, else the document text is
returned truncated to `MAX_TEXT_LEN`, else the empty string. -/
theorem get_text_eq_chains (e : Element) :
    get_text e =
      match currentValueResult e with
      | some s =>
        if s ≠ [] then .ok s
        else
          match documentTextResult e with
          | some t => .ok (t.take MAX_TEXT_LEN)
          | none => .ok []
      | none =>
        match documentTextResult e with
        | some t => .ok (t.take MAX_TEXT_LEN)
        | none => .ok [] := by
  obtain ⟨d, cs⟩ := e
  obtain ⟨pv, pt, ta, va, ct, nm, fo⟩ := d
  rcases pv with _ | pv
  · rcases pt with _ | pt
    · rfl
    · rcases pt with _ | tp
      · rfl
      · obtain ⟨dr⟩ := tp
        rcases dr with _ | r
        · rfl
        · obtain ⟨src⟩ := r
          rcases src with _ | t <;> rfl
  · rcases pv with _ | vp
    · rcases pt with _ | pt
      · rfl
      · rcases pt with _ | tp
        · rfl
        · obtain ⟨dr⟩ := tp
          rcases dr with _ | r
          · rfl
          · obtain ⟨src⟩ := r
            rcases src with _ | t <;> rfl
    · obtain ⟨cv⟩ := vp
      rcases cv with _ | s
      · rcases pt with _ | pt
        · rfl
        · rcases pt with _ | tp
          · rfl
          · obtain ⟨dr⟩ := tp
            rcases dr with _ | r
            · rfl
            · obtain ⟨src⟩ := r
              rcases src with _ | t <;> rfl
      · by_cases hs : s = []
        · subst hs
          simp only [get_text, currentValueResult, documentTextResult, Element.data]
          rcases pt with _ | pt
          · rfl
          · rcases pt with _ | tp
            · rfl
            · obtain ⟨dr⟩ := tp
              rcases dr with _ | r
              · rfl
              · obtain ⟨src⟩ := r
                rcases src with _ | t <;> rfl
        · simp only [get_text, currentValueResult, documentTextResult, Element.data]
          simp [hs]

/-- `get_text` never returns an error: every failing host step inside it
falls through to the next strategy or to `Ok(String::new())`. -/
theorem get_text_isOk (e : Element) : ∃ t, get_text e = .ok t := by
  rw [get_text_eq_chains e]
  rcases h : currentValueResult e with _ | s
  · rcases h2 : documentTextResult e with _ | t <;> exact ⟨_, rfl⟩
  · by_cases hs : s = []
    · subst hs
      rcases h2 : documentTextResult e with _ | t <;> simp
    · simp [hs]

/-! ## The claims -/

/-- C10: for every event delivered with a null sender element pointer,
each of the three behavior methods (focus-changed, property-changed,
generic text-changed) returns `S_OK` and prints nothing, submits nothing
and touches no element. -/
theorem C10_null_sender_noop (session : Option Session) (pid : Int) (v : Str) (eid : Int) :
    ManualFocusHandler.handle_focus_changed_event session none = ⟨[], [], S_OK⟩
    ∧ ManualPropertyHandler.handle_property_changed_event session none pid v = ⟨[], [], S_OK⟩
    ∧ ManualTextChangedHandler.handle_automation_event session none eid = ⟨[], [], S_OK⟩ := by
  refine ⟨rfl, ?_, ?_⟩
  · unfold ManualPropertyHandler.handle_property_changed_event
    split <;> rfl
  · unfold ManualTextChangedHandler.handle_automation_event
    split <;> rfl

/-- C2: for every property-changed event with a (non-null) sender element,
a message is submitted to the debounce channel if and only if the changed
property is the value property, the control type is Edit or Group, the
element reports keyboard focus, and the resulting text (payload if
non-empty, else the deep retrieval) is non-empty. -/
theorem C2_property_change_gates (session : Option Session) (e : Element) (pid : Int) (v : Str) :
    (ManualPropertyHandler.handle_property_changed_event session (some e) pid v).submitted ≠ []
      ↔ pid = UIA_ValueValuePropertyId
        ∧ (e.data.currentControlType = some UIA_EditControlTypeId
            ∨ e.data.currentControlType = some UIA_GroupControlTypeId)
        ∧ e.data.currentHasKeyboardFocus.getD false = true
        ∧ resultingText session e v ≠ [] := by
  unfold ManualPropertyHandler.handle_property_changed_event
  by_cases hpid : pid = UIA_ValueValuePropertyId
  · rcases hct : e.data.currentControlType with _ | ct
    · simp [hpid, hct]
    · by_cases hgate : ct = UIA_EditControlTypeId ∨ ct = UIA_GroupControlTypeId
      · by_cases hfo : e.data.currentHasKeyboardFocus.getD false = true
        · have htext : (if v = [] then
              (match get_text_deep session e with
               | .ok t => t
               | .error _ => []) else v) = resultingText session e v := by
            unfold resultingText
            by_cases hv : v = [] <;> simp [hv]
          by_cases hres : resultingText session e v = [] <;>
            simp [hpid, hct, hgate, hfo, htext, hres]
        · simp [hpid, hct, hgate, hfo]
      · simp [hpid, hct, hgate]
  · simp [hpid]

/-- Case analysis of `get_text_deep` under an all-succeeding session:
shallow-hit, no-descendant, and found-descendant cases. -/
theorem get_text_deep_cases (s : Session) (e : Element)
    (h1 : s.createCondTextOk = true) (h2 : s.createCondValueOk = true)
    (h3 : s.createOrCondOk = true) :
    (∀ t, get_text e = .ok t → t ≠ [] → get_text_deep (some s) e = .ok t)
    ∧ (get_text e = .ok [] → findFirstTextOrValue e = none →
        get_text_deep (some s) e = .ok [])
    ∧ (∀ f, get_text e = .ok [] → findFirstTextOrValue e = some f →
        get_text_deep (some s) e = get_text f) := by
  refine ⟨?_, ?_, ?_⟩
  · intro t ht hne
    unfold get_text_deep
    rw [ht]
    simp [hne]
  · intro h0 hf
    unfold get_text_deep
    rw [h0]
    simp [h1, h2, h3, hf]
  · intro f h0 hf
    unfold get_text_deep
    rw [h0]
    simp [h1, h2, h3, hf]

/-- C3: `get_text_deep` returns the shallow result when it is non-empty;
otherwise (with the automation session and the three condition builders
succeeding) it searches the strict-descendant subtree for the first node
satisfying text-pattern-available OR value-pattern-available and applies
the shallow retrieval — `get_text`, not `get_text_deep` — to it, returning
empty (not an error) when no such descendant exists. -/
theorem C3_deep_fallback (s : Session) (e : Element)
    (h1 : s.createCondTextOk = true) (h2 : s.createCondValueOk = true)
    (h3 : s.createOrCondOk = true) :
    (∀ t, get_text e = .ok t → t ≠ [] → get_text_deep (some s) e = .ok t)
    ∧ (get_text e = .ok [] → findFirstTextOrValue e = none →
        get_text_deep (some s) e = .ok [])
    ∧ (∀ f, get_text e = .ok [] → findFirstTextOrValue e = some f →
        get_text_deep (some s) e = get_text f)
    ∧ findFirstTextOrValue e
        = e.descendants.find?
            (fun d => d.data.isTextPatternAvailable || d.data.isValuePatternAvailable) :=
  ⟨(get_text_deep_cases s e h1 h2 h3).1, (get_text_deep_cases s e h1 h2 h3).2.1,
   (get_text_deep_cases s e h1 h2 h3).2.2, rfl⟩

/-- C3 witness: the spec's example — a parent with no direct text and one
value-capable descendant yielding "hello" — at the theorem's fallback case. -/
theorem C3_witness :
    get_text_deep (some goodSession) parentNoText = .ok (("hello").toList) := by
  have h := (C3_deep_fallback goodSession parentNoText rfl rfl rfl).2.2.1
    helloChild rfl rfl
  exact h.trans rfl

/-- C4: the shallow retrieval `get_text` prefers the direct value chain
and returns its result when non-empty; otherwise everything it returns
comes from the range-text chain truncated to `MAX_TEXT_LEN = 4096`
characters (exactly the first 4096 when the source is longer), so its
length never exceeds 4096. -/
theorem C4_value_first_then_truncated_range (e : Element) :
    (∀ s, currentValueResult e = some s → s ≠ [] → get_text e = .ok s)
    ∧ ((∀ s, currentValueResult e = some s → s = []) →
        ∀ t, get_text e = .ok t → t.length ≤ MAX_TEXT_LEN)
    ∧ ((∀ s, currentValueResult e = some s → s = []) →
        ∀ doc, documentTextResult e = some doc →
          get_text e = .ok (doc.take MAX_TEXT_LEN)) := by
  refine ⟨?_, ?_, ?_⟩
  · intro s hs hne
    rw [get_text_eq_chains e, hs]
    simp [hne]
  · intro hval t ht
    rw [get_text_eq_chains e] at ht
    rcases hv : currentValueResult e with _ | s
    · rw [hv] at ht
      rcases hd : documentTextResult e with _ | doc
      · rw [hd] at ht
        simp only [Except.ok.injEq] at ht
        simp [← ht]
      · rw [hd] at ht
        simp only [Except.ok.injEq] at ht
        rw [← ht]
        simp [List.length_take]
    · have hs0 : s = [] := hval s hv
      subst hs0
      rw [hv] at ht
      simp only [ne_eq, not_true_eq_false, if_false] at ht
      rcases hd : documentTextResult e with _ | doc
      · rw [hd] at ht
        simp only [Except.ok.injEq] at ht
        simp [← ht]
      · rw [hd] at ht
        simp only [Except.ok.injEq] at ht
        rw [← ht]
        simp [List.length_take]
  · intro hval doc hd
    rw [get_text_eq_chains e]
    rcases hv : currentValueResult e with _ | s
    · rw [hd]
    · have hs0 : s = [] := hval s hv
      subst hs0
      rw [hd]
      simp

/-- C4 witness: the value-first case at `helloChild` and the range-path
truncation case at an element whose only text is a document source. -/
theorem C4_witness :
    get_text helloChild = .ok (("hello").toList)
    ∧ get_text
        (Element.node
          ⟨none, some (some ⟨some ⟨some (("hi").toList)⟩⟩), false, false, none, none, none⟩ [])
        = .ok ((("hi").toList).take MAX_TEXT_LEN) := by
  constructor
  · exact (C4_value_first_then_truncated_range helloChild).1
      (("hello").toList) rfl (by decide)
  · exact (C4_value_first_then_truncated_range
      (Element.node
        ⟨none, some (some ⟨some ⟨some (("hi").toList)⟩⟩), false, false, none, none, none⟩ [])).2.2
      (by intro s hs; cases hs) (("hi").toList) rfl

/-- Shared characterization of `query_interface_impl`: a supported IID
returns the object itself with `S_OK` and bumps the count by exactly one
(no overflow assumed); anything else returns null and `E_NOINTERFACE`
leaving the state untouched. -/
theorem query_interface_impl_eq (own : GUID) (s : HandlerState) (iid : GUID)
    (hof : s.ref_count + 1 < u32Mod) :
    ((iid = IUnknown_IID ∨ iid = own) →
      query_interface_impl own s iid
        = (⟨s.ref_count + 1, s.destroyCount⟩, IfacePtr.self, S_OK))
    ∧ (¬(iid = IUnknown_IID ∨ iid = own) →
      query_interface_impl own s iid = (s, IfacePtr.null, E_NOINTERFACE)) := by
  constructor
  · intro h
    unfold query_interface_impl add_ref
    rw [if_pos h]
    simp [Nat.mod_eq_of_lt hof]
  · intro h
    unfold query_interface_impl
    rw [if_neg h]

/-- C6: for each of the three callback objects, `query_interface` with the
base `IUnknown` IID or that object's own behavior-interface IID succeeds
with a handle to the object itself, incrementing the reference count by
exactly 1; any other IID yields a null result with `E_NOINTERFACE` and an
unchanged state. (The count does not overflow `u32`.) -/
theorem C6_query_capability (s : HandlerState) (iid : GUID)
    (hof : s.ref_count + 1 < u32Mod) :
    (((iid = IUnknown_IID ∨ iid = IUIAutomationFocusChangedEventHandler_IID) →
        ManualFocusHandler.query_interface s iid
          = (⟨s.ref_count + 1, s.destroyCount⟩, IfacePtr.self, S_OK))
      ∧ (¬(iid = IUnknown_IID ∨ iid = IUIAutomationFocusChangedEventHandler_IID) →
        ManualFocusHandler.query_interface s iid = (s, IfacePtr.null, E_NOINTERFACE)))
    ∧ (((iid = IUnknown_IID ∨ iid = IUIAutomationPropertyChangedEventHandler_IID) →
        ManualPropertyHandler.query_interface s iid
          = (⟨s.ref_count + 1, s.destroyCount⟩, IfacePtr.self, S_OK))
      ∧ (¬(iid = IUnknown_IID ∨ iid = IUIAutomationPropertyChangedEventHandler_IID) →
        ManualPropertyHandler.query_interface s iid = (s, IfacePtr.null, E_NOINTERFACE)))
    ∧ (((iid = IUnknown_IID ∨ iid = IUIAutomationEventHandler_IID) →
        ManualTextChangedHandler.query_interface s iid
          = (⟨s.ref_count + 1, s.destroyCount⟩, IfacePtr.self, S_OK))
      ∧ (¬(iid = IUnknown_IID ∨ iid = IUIAutomationEventHandler_IID) →
        ManualTextChangedHandler.query_interface s iid = (s, IfacePtr.null, E_NOINTERFACE))) :=
  ⟨query_interface_impl_eq IUIAutomationFocusChangedEventHandler_IID s iid hof,
   query_interface_impl_eq IUIAutomationPropertyChangedEventHandler_IID s iid hof,
   query_interface_impl_eq IUIAutomationEventHandler_IID s iid hof⟩

/-- C6 witness: on a fresh object, querying `IUnknown` on the focus
handler succeeds and bumps the count from 1 to 2; querying the focus
handler for the generic event-handler IID is rejected with no change. -/
theorem C6_witness :
    ManualFocusHandler.query_interface HandlerState.new IUnknown_IID
      = (⟨2, 0⟩, IfacePtr.self, S_OK)
    ∧ ManualFocusHandler.query_interface HandlerState.new IUIAutomationEventHandler_IID
      = (HandlerState.new, IfacePtr.null, E_NOINTERFACE) := by
  constructor
  · exact (C6_query_capability HandlerState.new IUnknown_IID (by decide)).1.1
      (Or.inl rfl)
  · exact (C6_query_capability HandlerState.new IUIAutomationEventHandler_IID
      (by decide)).1.2 (by decide)

/-- C7 counterexample: on a focus change to an Edit element whose deep
retrieval succeeds with the empty string, the handler still prints the
current-content line — refuting "prints ... if and only if that text is
non-empty". -/
theorem C7_counterexample :
    get_text_deep (some goodSession) emptyEditElem = .ok []
    ∧ (ManualFocusHandler.handle_focus_changed_event (some goodSession)
        (some emptyEditElem)).printed
      = [focusLine UIA_EditControlTypeId [], contentLine []] :=
  ⟨rfl, rfl⟩

/-- C7 as amended: for a focus-changed event whose element reports control
type Edit or Group, the handler prints the transition line and attempts
the deep retrieval, printing the retrieved content if and only if the
retrieval returned `Ok` — even when the retrieved text is empty; nothing
is debounced and the status is `S_OK`. -/
theorem C7_amended_focus_behavior (session : Option Session) (e : Element) (ct : Int)
    (hct : e.data.currentControlType = some ct)
    (hgate : ct = UIA_EditControlTypeId ∨ ct = UIA_GroupControlTypeId) :
    (ManualFocusHandler.handle_focus_changed_event session (some e)).hresult = S_OK
    ∧ (ManualFocusHandler.handle_focus_changed_event session (some e)).submitted = []
    ∧ (∀ t, get_text_deep session e = .ok t →
        (ManualFocusHandler.handle_focus_changed_event session (some e)).printed
          = [focusLine ct (e.data.currentName.getD []), contentLine t])
    ∧ (∀ er, get_text_deep session e = .error er →
        (ManualFocusHandler.handle_focus_changed_event session (some e)).printed
          = [focusLine ct (e.data.currentName.getD [])]) := by
  unfold ManualFocusHandler.handle_focus_changed_event
  refine ⟨?_, ?_, ?_, ?_⟩
  · rcases hdeep : get_text_deep session e with t | er <;>
      simp [hct, hgate, hdeep]
  · rcases hdeep : get_text_deep session e with t | er <;>
      simp [hct, hgate, hdeep]
  · intro t hdeep
    simp [hct, hgate, hdeep]
  · intro er hdeep
    simp [hct, hgate, hdeep]

/-- C7 witness: the amended behavior at a concrete focused Edit element
whose deep retrieval succeeds (with the empty string). -/
theorem C7_witness :
    (ManualFocusHandler.handle_focus_changed_event (some goodSession)
        (some emptyEditElem)).printed
      = [focusLine UIA_EditControlTypeId [], contentLine []] := by
  exact (C7_amended_focus_behavior (some goodSession) emptyEditElem
    UIA_EditControlTypeId rfl (Or.inl rfl)).2.2.1 [] rfl

/-- C8 counterexample: with the element yielding no shallow text and the
first `CreatePropertyCondition` host call failing, `get_text_deep`
propagates the error to its caller instead of returning a string —
refuting "for every possible pattern of host-call failures ...
`get_text_deep` returns a string". -/
theorem C8_counterexample :
    get_text_deep (some badSession) emptyEditElem = .error () := rfl

/-- C8 as amended: failures of the per-element retrieval steps (pattern
acquisition, interface cast, value read, document range, range text read,
descendant search) are non-fatal — `get_text` always returns a string, and
so does `get_text_deep` provided the thread automation session is acquired
and its three condition-building calls succeed; only session acquisition
or condition construction failures surface as errors. -/
theorem C8_amended_nonfatal_steps (s : Session) (e : Element)
    (h1 : s.createCondTextOk = true) (h2 : s.createCondValueOk = true)
    (h3 : s.createOrCondOk = true) :
    (∃ t, get_text e = .ok t) ∧ (∃ t, get_text_deep (some s) e = .ok t) := by
  refine ⟨get_text_isOk e, ?_⟩
  obtain ⟨t, ht⟩ := get_text_isOk e
  by_cases hne : t = []
  · subst hne
    rcases hf : findFirstTextOrValue e with _ | f
    · exact ⟨[], (get_text_deep_cases s e h1 h2 h3).2.1 ht hf⟩
    · obtain ⟨u, hu⟩ := get_text_isOk f
      exact ⟨u, ((get_text_deep_cases s e h1 h2 h3).2.2 f ht hf).trans hu⟩
  · exact ⟨t, (get_text_deep_cases s e h1 h2 h3).1 t ht hne⟩

/-- C8 witness: the amended guarantee at a concrete element and an
all-succeeding session. -/
theorem C8_witness :
    (∃ t, get_text emptyEditElem = .ok t)
    ∧ (∃ t, get_text_deep (some goodSession) emptyEditElem = .ok t) :=
  C8_amended_nonfatal_steps goodSession emptyEditElem rfl rfl rfl

/-- Coalescing lemma: while every next submission arrives strictly within
`DEBOUNCE_MS` of the pending one, the worker keeps replacing the pending
message and finally emits only the last one, `DEBOUNCE_MS` after it. -/
theorem debounce_worker_coalesces (subs : List (Nat × Str)) :
    ∀ now last,
      List.Chain (fun a b => a.1 ≤ b.1 ∧ b.1 - a.1 < DEBOUNCE_MS) (now, last) subs →
      debounce_worker (some (now, last)) subs =
        [((((now, last) :: subs).getLast (List.cons_ne_nil _ _)).1 + DEBOUNCE_MS,
          (((now, last) :: subs).getLast (List.cons_ne_nil _ _)).2)] := by
  induction subs with
  | nil => intro now last _; rfl
  | cons hd tl ih =>
    intro now last hchain
    obtain ⟨t, m⟩ := hd
    rw [List.chain_cons] at hchain
    obtain ⟨⟨hle, hlt⟩, hrest⟩ := hchain
    have hlt2 : t - now < DEBOUNCE_MS := hlt
    have hstep : debounce_worker (some (now, last)) ((t, m) :: tl)
        = debounce_worker (some (t, m)) tl := by
      simp only [debounce_worker]
      rw [if_pos hlt2]
    rw [hstep, ih t m hrest]
    rw [List.getLast_cons_cons]

/-- C1: a non-empty burst of submissions — consecutive submissions spaced
(weakly monotone in time and) strictly less than `DEBOUNCE_MS` apart —
makes the worker emit exactly one message, the last one submitted, exactly
once, `DEBOUNCE_MS` after the last submission; in particular a single
isolated submission is emitted alone after `DEBOUNCE_MS`. -/
theorem C1_debounce_burst (subs : List (Nat × Str)) (hne : subs ≠ [])
    (hburst : isBurst subs) :
    workerEmissions subs
      = [((subs.getLast hne).1 + DEBOUNCE_MS, (subs.getLast hne).2)] := by
  match subs, hne with
  | (t, m) :: rest, _ =>
    have hchain : List.Chain (fun a b => a.1 ≤ b.1 ∧ b.1 - a.1 < DEBOUNCE_MS) (t, m) rest :=
      hburst
    have hstart : workerEmissions ((t, m) :: rest)
        = debounce_worker (some (t, m)) rest := rfl
    rw [hstart, debounce_worker_coalesces rest t m hchain]

/-- C1 witness: the spec's debounce-idempotence example ("X" alone) and a
two-submission burst, both at the theorem's concrete inputs. -/
theorem C1_witness :
    workerEmissions [(0, ("X").toList)] = [(DEBOUNCE_MS, ("X").toList)]
    ∧ workerEmissions [(0, ("A").toList), (50, ("B").toList)]
        = [(50 + DEBOUNCE_MS, ("B").toList)] :=
  ⟨C1_debounce_burst [(0, ("X").toList)] (List.cons_ne_nil _ _)
      (List.chain'_singleton _),
   C1_debounce_burst [(0, ("A").toList), (50, ("B").toList)] (List.cons_ne_nil _ _)
      (List.chain'_pair.mpr (by decide))⟩

/-- Under the host discipline, a run of lifetime calls from an alive,
never-destroyed state tracks the exact count, and the object is destroyed
(exactly once) precisely when the count reaches zero. -/
theorem runRcOps_valid (ops : List RcOp) :
    ∀ c, 0 < c → c < u32Mod → validRcOps c ops →
      runRcOps ⟨c, 0⟩ ops
        = ⟨netCount c ops, if netCount c ops = 0 then 1 else 0⟩ := by
  induction ops with
  | nil =>
    intro c hc _ _
    rw [runRcOps_nil, netCount_nil, if_neg (Nat.pos_iff_ne_zero.mp hc)]
  | cons op rest ih =>
    intro c hc hlt hv
    cases op with
    | addRef =>
      obtain ⟨h1, h2, h3⟩ := hv
      have hstep : (add_ref ⟨c, 0⟩).1 = ⟨c + 1, 0⟩ := by
        simp [add_ref, Nat.mod_eq_of_lt h2]
      rw [runRcOps_addRef, netCount_addRef, hstep]
      exact ih (c + 1) (Nat.succ_pos c) h2 h3
    | release =>
      obtain ⟨h1, h2⟩ := hv
      have hmod : (c + (u32Mod - 1)) % u32Mod = c - 1 := by
        have hc1 : c + (u32Mod - 1) = (c - 1) + u32Mod := by
          have : 1 ≤ u32Mod := by norm_num [u32Mod]
          omega
        rw [hc1, Nat.add_mod_right, Nat.mod_eq_of_lt (by omega)]
      by_cases hzero : c - 1 = 0
      · have hstep : (release ⟨c, 0⟩).1 = ⟨0, 1⟩ := by
          simp [release, hmod, hzero]
        cases rest with
        | nil =>
          rw [runRcOps_release, hstep, runRcOps_nil, netCount_release, netCount_nil, hzero]
          rfl
        | cons op2 rest2 =>
          exfalso
          rw [hzero] at h2
          cases op2 <;> exact absurd h2.1 (lt_irrefl 0)
      · have hstep : (release ⟨c, 0⟩).1 = ⟨c - 1, 0⟩ := by
          simp [release, hmod, hzero]
        rw [runRcOps_release, netCount_release, hstep]
        exact ih (c - 1) (Nat.pos_iff_ne_zero.mpr hzero) (by omega) h2

/-- C5: from creation at count 1, for every host-disciplined interleaving
of `add_ref`/`release` calls (linearized; each call is one atomic update
returning the new value), the object is destroyed if and only if the count
reaches zero, exactly once, as part of the `release` that reaches zero —
and only `release` ever destroys. -/
theorem C5_refcount_lifecycle (ops : List RcOp) (hv : validRcOps 1 ops) :
    ((runRcOps HandlerState.new ops).destroyCount
        = if (runRcOps HandlerState.new ops).ref_count = 0 then 1 else 0)
    ∧ (runRcOps HandlerState.new ops).ref_count = netCount 1 ops
    ∧ (∀ s : HandlerState,
        (add_ref s).2 = (add_ref s).1.ref_count
        ∧ (release s).2 = (release s).1.ref_count
        ∧ (add_ref s).1.destroyCount = s.destroyCount
        ∧ (release s).1.destroyCount
            = s.destroyCount + (if (release s).2 = 0 then 1 else 0)) := by
  have h := runRcOps_valid ops 1 one_pos (by norm_num [u32Mod]) hv
  have hnew : HandlerState.new = (⟨1, 0⟩ : HandlerState) := rfl
  refine ⟨?_, ?_, ?_⟩
  · rw [hnew, h]
  · rw [hnew, h]
  · intro s
    refine ⟨rfl, ?_, rfl, ?_⟩
    · rw [release_eq]
    · rw [release_eq]
      by_cases hz : (s.ref_count + (u32Mod - 1)) % u32Mod = 0
      · rw [if_pos hz, if_pos hz]
      · rw [if_neg hz, if_neg hz]
        rfl

/-- C5 witness: add one reference then release twice — the count runs
2, 1, 0 and the object is destroyed exactly once, by the last release. -/
theorem C5_witness :
    (runRcOps HandlerState.new [RcOp.addRef, RcOp.release, RcOp.release]).destroyCount
      = if (runRcOps HandlerState.new
            [RcOp.addRef, RcOp.release, RcOp.release]).ref_count = 0 then 1 else 0 :=
  (C5_refcount_lifecycle [RcOp.addRef, RcOp.release, RcOp.release] (by decide)).1

/-- The invariant holds initially. -/
theorem DInv_init (n : Nat) : DInv (initSys n) := by
  refine ⟨?_, ?_, ?_, ?_⟩ <;> intro hx <;> simp_all [initSys, DInv]

/-- The invariant is preserved by every step. -/
theorem DInv_step {s s2 : DebounceSys} (hs : DInv s) (h : DStep s s2) : DInv s2 := by
  obtain ⟨hE, hB, hR, hS⟩ := hs
  cases h with
  | acquireReady h h2 =>
    have hr := hR h
    refine ⟨?_, ?_, ?_, ?_⟩ <;> intro hx <;> simp_all
  | acquireWin h h2 =>
    have he := hE h
    refine ⟨?_, ?_, ?_, ?_⟩ <;> intro hx <;> simp_all
  | initSpawn h =>
    have hbusy : s.once = OncePhase.busy := by
      cases ho : s.once
      · exact absurd (hE ho).1 (by intro hx; omega)
      · rfl
      · exact absurd (hR ho).1 (by intro hx; omega)
    have hb := hB hbusy
    refine ⟨?_, ?_, ?_, ?_⟩ <;> intro hx <;> simp_all
    omega
  | publish h =>
    have hbusy : s.once = OncePhase.busy := by
      cases ho : s.once
      · exact absurd (hE ho).2.1 (by intro hx; omega)
      · rfl
      · exact absurd (hR ho).2.1 (by intro hx; omega)
    have hb := hB hbusy
    refine ⟨?_, ?_, ?_, ?_⟩ <;> intro hx <;> simp_all
    omega
  | send h =>
    have hready : s.once = OncePhase.ready := hS (by omega)
    have hr := hR hready
    refine ⟨?_, ?_, ?_, ?_⟩ <;> intro hx <;> simp_all

/-- Every reachable state satisfies the invariant. -/
theorem DInv_reachable {n : Nat} {s : DebounceSys} (h : DReachable n s) : DInv s := by
  induction h with
  | refl => exact DInv_init n
  | tail hsteps hstep ih => exact DInv_step ih hstep

/-- C9: under every interleaving of concurrent `debounce_print` calls, at
most one worker thread ever exists, and once any message has been
delivered, exactly one worker exists (the channel's single receiver) —
initialization is exactly-once regardless of how many threads race it. -/
theorem C9_single_worker (n : Nat) (s : DebounceSys) (h : DReachable n s) :
    s.workers ≤ 1 ∧ (0 < s.sent → s.workers = 1) := by
  obtain ⟨hE, hB, hR, hS⟩ := DInv_reachable h
  constructor
  · cases ho : s.once
    · simp [(hE ho).2.2]
    · have := hB ho
      omega
    · simp [(hR ho).2.2]
  · intro hsent
    exact (hR (hS (by omega))).2.2

/-- C9 witness: the initial state with two racing caller threads is
reachable; no more than one worker exists there. -/
theorem C9_witness :
    (initSys 2).workers ≤ 1 ∧ (0 < (initSys 2).sent → (initSys 2).workers = 1) :=
  C9_single_worker 2 (initSys 2) Relation.ReflTransGen.refl

end InputMonitor
